import Mathlib

/-!
Shallow embedding of `ludwig/features/timeseries_feature.py`
(class `TimeseriesFeatureMixin`), together with theorems about its
preprocessing functions.

Modelling conventions:
* A tokenizer obtained from `tokenizer_registry` is a parameter
  `tokenizer : String → List String` (the registry itself is external).
* `np.array(tokenized).astype(np.float32)` is modelled by an elementwise
  conversion parameter `conv : String → γ`; the numeric cell type is kept
  abstract since no claim depends on float arithmetic.
* The stumpy/cuda matrix-profile computation inside `build_stumpy_mp` is
  external library code, modelled as an oracle parameter
  `stumpyOracle : List α → Nat → List α` (the first column of the stumpy
  output).
* Rows reaching `build_matrix` are either Python strings or `None`
  (the padded entries produced by `add_timeseries_matrix_profile`), hence
  `Option String`; Python truthiness of a row is `none`/empty string ↦ falsy.
* Raised exceptions are modelled with `Except String`.
* Python's `seq_length - 1` can be negative; the `Nat` embedding is faithful
  for `seq_length ≥ 1`, and theorems about the window machinery carry that
  hypothesis.
* The `metadata` dict is modelled by its single relevant entry
  `max_timeseries_length : Nat`, assumed present (both `metadata.get` and
  `metadata[...]` accesses in `feature_data` then read the same value).
-/

namespace Ludwig

/-- pd.isnull is False on every Python `str` value, which is the element type
flowing through `add_timeseries_matrix_profile` when the matrix-profile option
is disabled. -/
def pd_isnull_str (_ : String) : Bool := false

/-- Lines 78-84 of the source: tokenize one row; a falsy row (`None` or the
empty string) becomes the one-element vector `[padding_value]`. -/
def tokenizeCell {γ : Type} (tokenizer : String → List String) (conv : String → γ)
    (padding_value : γ) (ts : Option String) : List γ :=
  match ts with
  | none => [padding_value]
  | some s => if s.isEmpty then [padding_value] else (tokenizer s).map conv

/-- Lines 104-109 of the source: one row of the output matrix. The matrix is
prefilled with `padding_value`; with `padding = "right"` the first
`limit = min (len vector) length_limit` positions are overwritten with the
vector prefix, otherwise the last `limit` positions are. -/
def build_matrix_row {γ : Type} (tokenizer : String → List String) (conv : String → γ)
    (length_limit : Nat) (padding_value : γ) (padding : String)
    (ts : Option String) : List γ :=
  let vector := tokenizeCell tokenizer conv padding_value ts
  let limit := min vector.length length_limit
  if padding = "right" then
    vector.take limit ++ List.replicate (length_limit - limit) padding_value
  else
    List.replicate (length_limit - limit) padding_value ++ vector.take limit

/-- `TimeseriesFeatureMixin.build_matrix` (lines 64-110). The debug logging
and the dead local `max_length` computed before line 98 do not affect the
result and are omitted. -/
def build_matrix {γ : Type} (tokenizer : String → List String) (conv : String → γ)
    (timeseries : List (Option String)) (length_limit : Nat)
    (padding_value : γ) (padding : String) : List (List γ) :=
  timeseries.map (build_matrix_row tokenizer conv length_limit padding_value padding)

/-- `TimeseriesFeatureMixin.get_feature_meta` (lines 47-62): the value stored
under the key `max_timeseries_length`. -/
def get_feature_meta (tokenizer : String → List String)
    (timeseries_length_limit : Nat) (column : List String) : Nat :=
  min timeseries_length_limit
    (column.foldl (fun m ts => max m (tokenizer ts).length) 0)

/-- `TimeseriesFeatureMixin.build_stumpy_mp` (lines 154-179), with the external
stumpy/cuda computation abstracted as the `stumpyOracle` argument (the
`[:, 0]` column of the stumpy output). -/
def build_stumpy_mp {α : Type} (stumpyOracle : List α → Nat → List α)
    (column : List α) (seq_length : Nat) : List α :=
  stumpyOracle column seq_length

/-- Lines 195-212 of the source, after the matrix-profile sequence `mp` has
been selected: pad `mp` on the left with `seq_length - 1` copies of `mp[0]`
(reading `mp[0]` raises on an empty `mp`), check for nulls, emit
`seq_length - 1` leading `None` entries and then, for each index from
`seq_length - 1` to `column_length - 1`, the space-joined window
`matrix_profile[index - (seq_length-1) .. index]`. -/
def profile_window_data {α : Type} (toStr : α → String) (isNull : α → Bool)
    (mp : List α) (column_length seq_length : Nat) :
    Except String (List (Option String)) :=
  match mp with
  | [] => .error "index 0 is out of bounds"
  | backfill_with :: _ =>
    let window_pad_length := seq_length - 1
    let matrix_profile := List.replicate window_pad_length backfill_with ++ mp
    if matrix_profile.any isNull then
      .error "Matrix profile for the column contains NaN values. Try to increase the dataset size"
    else
      .ok (List.replicate window_pad_length (none : Option String) ++
        (List.range' window_pad_length (column_length - window_pad_length)).map
          (fun index => some (String.intercalate " "
            (((matrix_profile.drop (index - window_pad_length)).take
              (window_pad_length + 1)).map toStr))))

/-- `TimeseriesFeatureMixin.add_timeseries_matrix_profile` (lines 181-212):
select the profile sequence (lines 188-193), then build the sliding windows. -/
def add_timeseries_matrix_profile {α : Type} (toStr : α → String)
    (isNull : α → Bool) (stumpyOracle : List α → Nat → List α)
    (column : List α) (seq_length : Nat)
    (matrix_profile_flag : Bool) : Except String (List (Option String)) :=
  let mp := if matrix_profile_flag then
      build_stumpy_mp stumpyOracle column seq_length
    else column
  match mp with
  | [] => .error "index 0 is out of bounds"
  | backfill_with :: _ =>
    let window_pad_length := seq_length - 1
    let matrix_profile := List.replicate window_pad_length backfill_with ++ mp
    if matrix_profile.any isNull then
      .error "Matrix profile for the column contains NaN values. Try to increase the dataset size"
    else
      .ok (List.replicate window_pad_length (none : Option String) ++
        (List.range' window_pad_length (column.length - window_pad_length)).map
          (fun index => some (String.intercalate " "
            (((matrix_profile.drop (index - window_pad_length)).take
              (window_pad_length + 1)).map toStr))))

/-- Result of `feature_data`: the returned matrix, the value written back into
`metadata` under `max_timeseries_length`, and the `offset` written into
`global_preprocessing_parameters`. -/
structure FeatureDataResult (γ : Type) where
  timeseries_data : List (List γ)
  max_timeseries_length : Nat
  offset : Nat
deriving DecidableEq

/-- `TimeseriesFeatureMixin.feature_data` (lines 112-136). Note that
`build_matrix` is called with the ORIGINAL `metadata['max_timeseries_length']`
(line 129) while `metadata` is updated to the possibly enlarged local value
only afterwards (line 133). -/
def feature_data {γ : Type} (tokenizer : String → List String) (conv : String → γ)
    (stumpyOracle : List String → Nat → List String)
    (column : List String) (md_max_timeseries_length : Nat)
    (window_size : Nat) (matrix_profile_flag : Bool)
    (padding_value : γ) (padding : String) :
    Except String (FeatureDataResult γ) :=
  let seq_length := window_size
  match add_timeseries_matrix_profile id pd_isnull_str stumpyOracle
      column seq_length matrix_profile_flag with
  | .error e => .error e
  | .ok column2 =>
    let offset := seq_length - 1
    let max_timeseries_length :=
      if md_max_timeseries_length < seq_length then seq_length
      else md_max_timeseries_length
    let timeseries_data :=
      build_matrix tokenizer conv column2 md_max_timeseries_length
        padding_value padding
    .ok ⟨timeseries_data, max_timeseries_length, offset⟩

/-! ### Helper lemmas -/

theorem any_pd_isnull_str (l : List String) : l.any pd_isnull_str = false := by
  induction l with
  | nil => rfl
  | cons a t ih => simp [List.any_cons, ih, pd_isnull_str]

theorem tokenizeCell_empty {γ : Type} (tokenizer : String → List String)
    (conv : String → γ) (padding_value : γ) :
    tokenizeCell tokenizer conv padding_value (some "") = [padding_value] := rfl

theorem build_matrix_row_length {γ : Type} (tokenizer : String → List String)
    (conv : String → γ) (length_limit : Nat) (padding_value : γ)
    (padding : String) (ts : Option String) :
    (build_matrix_row tokenizer conv length_limit padding_value padding ts).length
      = length_limit := by
  by_cases h : padding = "right" <;> simp [build_matrix_row, h]

theorem build_matrix_length {γ : Type} (tokenizer : String → List String)
    (conv : String → γ) (timeseries : List (Option String)) (length_limit : Nat)
    (padding_value : γ) (padding : String) :
    (build_matrix tokenizer conv timeseries length_limit padding_value padding).length
      = timeseries.length := by
  simp [build_matrix]

theorem build_matrix_getElem? {γ : Type} (tokenizer : String → List String)
    (conv : String → γ) (timeseries : List (Option String)) (length_limit : Nat)
    (padding_value : γ) (padding : String) (i : Nat) :
    (build_matrix tokenizer conv timeseries length_limit padding_value padding)[i]?
      = (timeseries[i]?).map
          (build_matrix_row tokenizer conv length_limit padding_value padding) := by
  simp [build_matrix]

theorem build_matrix_row_right_written {γ : Type} (tokenizer : String → List String)
    (conv : String → γ) (length_limit : Nat) (padding_value : γ) (ts : Option String)
    (j : Nat)
    (hj : j < min (tokenizeCell tokenizer conv padding_value ts).length length_limit) :
    (build_matrix_row tokenizer conv length_limit padding_value "right" ts)[j]?
      = (tokenizeCell tokenizer conv padding_value ts)[j]? := by
  simp only [build_matrix_row, reduceIte]
  rw [List.getElem?_append_left (by simp only [List.length_take]; omega)]
  exact List.getElem?_take_of_lt hj

theorem build_matrix_row_right_pad {γ : Type} (tokenizer : String → List String)
    (conv : String → γ) (length_limit : Nat) (padding_value : γ) (ts : Option String)
    (j : Nat)
    (hj1 : min (tokenizeCell tokenizer conv padding_value ts).length length_limit ≤ j)
    (hj2 : j < length_limit) :
    (build_matrix_row tokenizer conv length_limit padding_value "right" ts)[j]?
      = some padding_value := by
  simp only [build_matrix_row, reduceIte]
  rw [List.getElem?_append_right (by simp only [List.length_take]; omega)]
  exact List.getElem?_replicate_of_lt (by simp only [List.length_take]; omega)

theorem build_matrix_row_left_written {γ : Type} (tokenizer : String → List String)
    (conv : String → γ) (length_limit : Nat) (padding_value : γ) (padding : String)
    (ts : Option String) (j : Nat) (hpad : padding ≠ "right")
    (hj : j < min (tokenizeCell tokenizer conv padding_value ts).length length_limit) :
    (build_matrix_row tokenizer conv length_limit padding_value padding ts)[
        (length_limit
          - min (tokenizeCell tokenizer conv padding_value ts).length length_limit) + j]?
      = (tokenizeCell tokenizer conv padding_value ts)[j]? := by
  simp only [build_matrix_row, if_neg hpad]
  rw [List.getElem?_append_right (by simp only [List.length_replicate]; omega)]
  simp only [List.length_replicate, Nat.add_sub_cancel_left]
  exact List.getElem?_take_of_lt hj

theorem build_matrix_row_left_pad {γ : Type} (tokenizer : String → List String)
    (conv : String → γ) (length_limit : Nat) (padding_value : γ) (padding : String)
    (ts : Option String) (j : Nat) (hpad : padding ≠ "right")
    (hj : j < length_limit
      - min (tokenizeCell tokenizer conv padding_value ts).length length_limit) :
    (build_matrix_row tokenizer conv length_limit padding_value padding ts)[j]?
      = some padding_value := by
  simp only [build_matrix_row, if_neg hpad]
  rw [List.getElem?_append_left (by simp only [List.length_replicate]; omega)]
  exact List.getElem?_replicate_of_lt hj

theorem foldl_max_eq (l : List Nat) : ∀ a : Nat, l.foldl max a = max a (l.foldr max 0) := by
  induction l with
  | nil => intro a; simp
  | cons b t ih =>
    intro a
    rw [List.foldl_cons, List.foldr_cons, ih (max a b), Nat.max_assoc]

theorem add_timeseries_matrix_profile_false_eq
    (stumpyOracle : List String → Nat → List String) (a : String)
    (as : List String) (seq_length : Nat) :
    add_timeseries_matrix_profile id pd_isnull_str stumpyOracle (a :: as)
        seq_length false
      = .ok (List.replicate (seq_length - 1) (none : Option String) ++
          (List.range' (seq_length - 1) ((a :: as).length - (seq_length - 1))).map
            (fun index => some (String.intercalate " "
              (((List.replicate (seq_length - 1) a ++ (a :: as)).drop
                (index - (seq_length - 1))).take ((seq_length - 1) + 1))))) := by
  simp [add_timeseries_matrix_profile, any_pd_isnull_str, pd_isnull_str]

/-! ### Claim theorems -/

/-- C8: get_feature_meta returns the minimum of timeseries_length_limit and the
maximum tokenized length over the rows of the column; in particular the result
never exceeds timeseries_length_limit and equals 0 for an empty column. -/
theorem get_feature_meta_spec (tokenizer : String → List String)
    (timeseries_length_limit : Nat) (column : List String) :
    get_feature_meta tokenizer timeseries_length_limit column
      = min timeseries_length_limit
          ((column.map (fun ts => (tokenizer ts).length)).foldr max 0) ∧
    get_feature_meta tokenizer timeseries_length_limit column
      ≤ timeseries_length_limit ∧
    get_feature_meta tokenizer timeseries_length_limit [] = 0 := by
  refine ⟨?_, Nat.min_le_left _ _, by simp [get_feature_meta]⟩
  unfold get_feature_meta
  rw [← List.foldl_map (fun ts => (tokenizer ts).length) max column 0,
    foldl_max_eq, Nat.zero_max]

/-- C10: a row whose string is empty (falsy in Python) is replaced by the
single-element vector [padding_value], so the corresponding output row of
build_matrix consists entirely of padding_value, for either padding side. -/
theorem build_matrix_empty_string_row {γ : Type} (tokenizer : String → List String)
    (conv : String → γ) (timeseries : List String) (length_limit : Nat)
    (padding_value : γ) (padding : String) (i : Nat)
    (h : timeseries[i]? = some "") :
    (build_matrix tokenizer conv (timeseries.map some) length_limit padding_value
        padding)[i]? = some (List.replicate length_limit padding_value) := by
  rw [build_matrix_getElem?]
  have hrow : build_matrix_row tokenizer conv length_limit padding_value padding
      (some "") = List.replicate length_limit padding_value := by
    simp only [build_matrix_row, tokenizeCell_empty, List.length_cons,
      List.length_nil]
    match length_limit with
    | 0 => by_cases hp : padding = "right" <;> simp [hp]
    | L + 1 =>
      have h1 : min (0 + 1) (L + 1) = 1 := by omega
      by_cases hp : padding = "right"
      · simp [hp, h1, List.replicate_succ]
      · rw [if_neg hp, h1]
        simp only [List.take_succ_cons, List.take_nil, Nat.add_sub_cancel]
        rw [← List.replicate_succ' L padding_value]
  simp [h, hrow]

/-- C3: the matrix-profile augmentation is optional: with a truthy
matrix_profile entry, add_timeseries_matrix_profile builds its sliding windows
over the output of build_stumpy_mp; otherwise it builds them over the raw
column values themselves, and the stumpy oracle has no influence on the
result. -/
theorem add_timeseries_matrix_profile_branch {α : Type} (toStr : α → String)
    (isNull : α → Bool) (stumpyOracle : List α → Nat → List α)
    (column : List α) (seq_length : Nat) :
    (add_timeseries_matrix_profile toStr isNull stumpyOracle column seq_length true
      = profile_window_data toStr isNull
          (build_stumpy_mp stumpyOracle column seq_length) column.length seq_length) ∧
    (add_timeseries_matrix_profile toStr isNull stumpyOracle column seq_length false
      = profile_window_data toStr isNull column column.length seq_length) ∧
    (∀ otherOracle : List α → Nat → List α,
      add_timeseries_matrix_profile toStr isNull stumpyOracle column seq_length false
        = add_timeseries_matrix_profile toStr isNull otherOracle column seq_length false) :=
  ⟨rfl, rfl, fun _ => rfl⟩

/-- C7: the preprocessing transformations are deterministic: with the
matrix_profile option disabled, two runs of get_feature_meta, build_matrix and
add_timeseries_matrix_profile on equal inputs produce equal outputs, and the
stumpy oracle (the only external state) has no influence. -/
theorem preprocessing_deterministic {γ : Type} (tokenizer : String → List String)
    (conv : String → γ) (timeseries_length_limit length_limit : Nat)
    (padding_value : γ) (padding : String)
    (o1 o2 : List String → Nat → List String) (seq_length : Nat)
    (c1 c2 : List String) (h : c1 = c2) :
    get_feature_meta tokenizer timeseries_length_limit c1
      = get_feature_meta tokenizer timeseries_length_limit c2 ∧
    build_matrix tokenizer conv (c1.map some) length_limit padding_value padding
      = build_matrix tokenizer conv (c2.map some) length_limit padding_value padding ∧
    add_timeseries_matrix_profile id pd_isnull_str o1 c1 seq_length false
      = add_timeseries_matrix_profile id pd_isnull_str o2 c2 seq_length false := by
  subst h
  exact ⟨rfl, rfl, rfl⟩

/-- Witness for C7 at a concrete input. -/
theorem preprocessing_deterministic_witness :
    get_feature_meta (fun s => s.splitOn " ") 4 ["1 2"]
      = get_feature_meta (fun s => s.splitOn " ") 4 ["1 2"] ∧
    build_matrix (fun s => s.splitOn " ") id ((["1 2"] : List String).map some) 3 "0" "right"
      = build_matrix (fun s => s.splitOn " ") id ((["1 2"] : List String).map some) 3 "0" "right" ∧
    add_timeseries_matrix_profile id pd_isnull_str (fun c _ => c) ["1 2"] 2 false
      = add_timeseries_matrix_profile id pd_isnull_str (fun _ _ => []) ["1 2"] 2 false :=
  preprocessing_deterministic (fun s => s.splitOn " ") id 4 3 "0" "right"
    (fun c _ => c) (fun _ _ => []) 2 ["1 2"] ["1 2"] rfl

/-- C2: for every non-empty column and every window size seq_length ≥ 1, with
the matrix-profile option disabled, add_timeseries_matrix_profile returns a
list whose entries at indexes 0 .. seq_length-2 are None and whose entry at
every existing index i ≥ seq_length-1 is the space-joined string of the
seq_length consecutive values of the padded profile at indexes
i-seq_length+1 .. i, where the padded profile is the profile sequence (here
the column itself) prefixed with seq_length-1 copies of its first value. -/
theorem add_timeseries_matrix_profile_window_content
    (stumpyOracle : List String → Nat → List String) (column : List String)
    (seq_length : Nat) (h1 : 1 ≤ seq_length) (hc : column ≠ []) :
    ∃ r, add_timeseries_matrix_profile id pd_isnull_str stumpyOracle column
        seq_length false = .ok r ∧
      (∀ i, i < seq_length - 1 → r[i]? = some none) ∧
      (∀ i, seq_length - 1 ≤ i → i < column.length →
        r[i]? = some (some (String.intercalate " "
          (((List.replicate (seq_length - 1) column.headI ++ column).drop
            (i - (seq_length - 1))).take seq_length)))) := by
  obtain ⟨a, as, rfl⟩ := List.exists_cons_of_ne_nil hc
  refine ⟨_, add_timeseries_matrix_profile_false_eq stumpyOracle a as seq_length,
    ?_, ?_⟩
  · intro i hi
    rw [List.getElem?_append_left (by simpa using hi)]
    exact List.getElem?_replicate_of_lt hi
  · intro i hi1 hi2
    rw [List.getElem?_append_right (by simpa using hi1)]
    simp only [List.length_replicate, List.getElem?_map]
    rw [List.getElem?_range' _ _ (by omega)]
    have hidx : (seq_length - 1) + 1 * (i - (seq_length - 1)) = i := by omega
    have hseq : seq_length - 1 + 1 = seq_length := by omega
    simp [hidx, hseq, List.headI]

/-- Witness for C2 at a concrete input. -/
theorem add_timeseries_matrix_profile_window_content_witness :
    (1 ≤ 2) ∧ ((["1", "2", "3"] : List String) ≠ []) ∧
    (∃ r, add_timeseries_matrix_profile id pd_isnull_str (fun c _ => c)
        ["1", "2", "3"] 2 false = .ok r ∧
      (∀ i, i < 2 - 1 → r[i]? = some none) ∧
      (∀ i, 2 - 1 ≤ i → i < (["1", "2", "3"] : List String).length →
        r[i]? = some (some (String.intercalate " "
          (((List.replicate (2 - 1) (["1", "2", "3"] : List String).headI
              ++ ["1", "2", "3"]).drop (i - (2 - 1))).take 2))))) :=
  ⟨by decide, by decide,
    add_timeseries_matrix_profile_window_content (fun c _ => c) ["1", "2", "3"]
      2 (by decide) (by decide)⟩

/-- C9: the empty column makes add_timeseries_matrix_profile, and hence
feature_data, fail when reading the first profile value mp[0]; every non-empty
column with the matrix-profile option disabled succeeds, reaching past the
mp[0] read and the NaN check with no error. -/
theorem add_timeseries_matrix_profile_empty_vs_nonempty {γ : Type}
    (stumpyOracle : List String → Nat → List String) (column : List String)
    (seq_length : Nat) (h1 : 1 ≤ seq_length) (hc : column ≠ []) :
    (add_timeseries_matrix_profile id pd_isnull_str stumpyOracle
        ([] : List String) seq_length false = .error "index 0 is out of bounds") ∧
    (∀ (tokenizer : String → List String) (conv : String → γ) (md_max : Nat)
        (padding_value : γ) (padding : String),
      feature_data tokenizer conv stumpyOracle [] md_max seq_length false
          padding_value padding = .error "index 0 is out of bounds") ∧
    (∃ r, add_timeseries_matrix_profile id pd_isnull_str stumpyOracle column
        seq_length false = .ok r) := by
  refine ⟨rfl, fun _ _ _ _ _ => rfl, ?_⟩
  obtain ⟨a, as, rfl⟩ := List.exists_cons_of_ne_nil hc
  exact ⟨_, add_timeseries_matrix_profile_false_eq stumpyOracle a as seq_length⟩

/-- Witness for C9 at a concrete input. -/
theorem add_timeseries_matrix_profile_empty_vs_nonempty_witness :
    (1 ≤ 2) ∧ ((["1"] : List String) ≠ []) ∧
    ((add_timeseries_matrix_profile id pd_isnull_str (fun c _ => c)
        ([] : List String) 2 false = .error "index 0 is out of bounds") ∧
     (∀ (tokenizer : String → List String) (conv : String → String) (md_max : Nat)
        (padding_value : String) (padding : String),
        feature_data tokenizer conv (fun c _ => c) [] md_max 2 false
          padding_value padding = .error "index 0 is out of bounds") ∧
     (∃ r, add_timeseries_matrix_profile id pd_isnull_str (fun c _ => c) ["1"]
        2 false = .ok r)) :=
  ⟨by decide, by decide,
    add_timeseries_matrix_profile_empty_vs_nonempty (fun c _ => c) ["1"] 2
      (by decide) (by decide)⟩

/-- C1: for every list of timeseries strings, every positive length_limit and
every padding_value, build_matrix returns one row per input string, every row
has exactly length_limit columns regardless of the tokenized lengths, and
every position of row i not written from the tokenized vector (the trailing
positions for right padding, the leading positions otherwise) holds
padding_value. -/
theorem build_matrix_shape_and_padding {γ : Type}
    (tokenizer : String → List String) (conv : String → γ)
    (timeseries : List String) (length_limit : Nat) (padding_value : γ)
    (padding : String) (hL : 0 < length_limit) :
    (build_matrix tokenizer conv (timeseries.map some) length_limit
        padding_value padding).length = timeseries.length ∧
    (∀ row ∈ build_matrix tokenizer conv (timeseries.map some) length_limit
        padding_value padding, row.length = length_limit) ∧
    (∀ (i : Nat) (ts : String), timeseries[i]? = some ts →
      ∃ row : List γ, (build_matrix tokenizer conv (timeseries.map some) length_limit
          padding_value padding)[i]? = some row ∧
        (padding = "right" →
          ∀ j, min (tokenizeCell tokenizer conv padding_value (some ts)).length
              length_limit ≤ j → j < length_limit → row[j]? = some padding_value) ∧
        (padding ≠ "right" →
          ∀ j, j < length_limit
              - min (tokenizeCell tokenizer conv padding_value (some ts)).length
                length_limit → row[j]? = some padding_value)) := by
  refine ⟨by simp [build_matrix], ?_, ?_⟩
  · intro row hrow
    simp only [build_matrix, List.mem_map] at hrow
    obtain ⟨ts, _, rfl⟩ := hrow
    exact build_matrix_row_length tokenizer conv length_limit padding_value
      padding ts
  · intro i ts hts
    refine ⟨build_matrix_row tokenizer conv length_limit padding_value padding
      (some ts), ?_, ?_, ?_⟩
    · rw [build_matrix_getElem?]
      simp [hts]
    · intro hpad j hj1 hj2
      subst hpad
      exact build_matrix_row_right_pad tokenizer conv length_limit
        padding_value (some ts) j hj1 hj2
    · intro hpad j hj
      exact build_matrix_row_left_pad tokenizer conv length_limit
        padding_value padding (some ts) j hpad hj

/-- Witness for C1 at a concrete input. -/
theorem build_matrix_shape_and_padding_witness :
    (0 < 3) ∧
    ((build_matrix (fun s => s.splitOn " ") id ((["1 2"] : List String).map some)
        3 "P" "right").length = (["1 2"] : List String).length ∧
     (∀ row ∈ build_matrix (fun s => s.splitOn " ") id
        ((["1 2"] : List String).map some) 3 "P" "right", row.length = 3) ∧
     (∀ (i : Nat) (ts : String), (["1 2"] : List String)[i]? = some ts →
      ∃ row : List String, (build_matrix (fun s => s.splitOn " ") id
          ((["1 2"] : List String).map some) 3 "P" "right")[i]? = some row ∧
        (("right" : String) = "right" →
          ∀ j, min (tokenizeCell (fun s => s.splitOn " ") id "P" (some ts)).length
              3 ≤ j → j < 3 → row[j]? = some "P") ∧
        (("right" : String) ≠ "right" →
          ∀ j, j < 3 - min (tokenizeCell (fun s => s.splitOn " ") id "P"
              (some ts)).length 3 → row[j]? = some "P"))) :=
  ⟨by decide,
    build_matrix_shape_and_padding (fun s => s.splitOn " ") id ["1 2"] 3 "P"
      "right" (by decide)⟩

/-- C6: with padding "right" the (possibly truncated) token vector of a row
occupies columns 0 .. limit-1, with any other padding argument it occupies the
trailing columns length_limit-limit .. length_limit-1, and in both cases the
written values are the first limit elements of the tokenized vector (its
prefix under truncation), where limit = min(vector length, length_limit). -/
theorem build_matrix_padding_side_and_truncation {γ : Type}
    (tokenizer : String → List String) (conv : String → γ)
    (timeseries : List String) (length_limit : Nat) (padding_value : γ)
    (padding : String) (i : Nat) (ts : String)
    (hts : timeseries[i]? = some ts) :
    ∃ row, (build_matrix tokenizer conv (timeseries.map some) length_limit
        padding_value padding)[i]? = some row ∧
      (padding = "right" →
        ∀ j, j < min (tokenizeCell tokenizer conv padding_value (some ts)).length
            length_limit →
          row[j]? = (tokenizeCell tokenizer conv padding_value (some ts))[j]?) ∧
      (padding ≠ "right" →
        ∀ j, j < min (tokenizeCell tokenizer conv padding_value (some ts)).length
            length_limit →
          row[(length_limit
            - min (tokenizeCell tokenizer conv padding_value (some ts)).length
              length_limit) + j]?
            = (tokenizeCell tokenizer conv padding_value (some ts))[j]?) := by
  refine ⟨build_matrix_row tokenizer conv length_limit padding_value padding
    (some ts), ?_, ?_, ?_⟩
  · rw [build_matrix_getElem?]
    simp [hts]
  · intro hpad j hj
    subst hpad
    exact build_matrix_row_right_written tokenizer conv length_limit
      padding_value (some ts) j hj
  · intro hpad j hj
    exact build_matrix_row_left_written tokenizer conv length_limit
      padding_value padding (some ts) j hpad hj

/-- Witness for C6 at a concrete input. -/
theorem build_matrix_padding_side_and_truncation_witness :
    ((["1 2 3 4"] : List String)[0]? = some "1 2 3 4") ∧
    (∃ row, (build_matrix (fun s => s.splitOn " ") id
        ((["1 2 3 4"] : List String).map some) 3 "P" "left")[0]? = some row ∧
      (("left" : String) = "right" →
        ∀ j, j < min (tokenizeCell (fun s => s.splitOn " ") id "P"
            (some "1 2 3 4")).length 3 →
          row[j]? = (tokenizeCell (fun s => s.splitOn " ") id "P"
            (some "1 2 3 4"))[j]?) ∧
      (("left" : String) ≠ "right" →
        ∀ j, j < min (tokenizeCell (fun s => s.splitOn " ") id "P"
            (some "1 2 3 4")).length 3 →
          row[(3 - min (tokenizeCell (fun s => s.splitOn " ") id "P"
              (some "1 2 3 4")).length 3) + j]?
            = (tokenizeCell (fun s => s.splitOn " ") id "P"
              (some "1 2 3 4"))[j]?)) :=
  ⟨by decide,
    build_matrix_padding_side_and_truncation (fun s => s.splitOn " ") id
      ["1 2 3 4"] 3 "P" "left" 0 "1 2 3 4" (by decide)⟩

/-- C5 counterexample: for the non-empty column ["1"] and window size 3,
add_timeseries_matrix_profile returns the 2-entry list [None, None], not
len(column) = 1 entries. -/
theorem add_timeseries_matrix_profile_length_counterexample :
    add_timeseries_matrix_profile id pd_isnull_str (fun c _ => c) ["1"] 3 false
      = .ok [none, none] ∧
    ([none, none] : List (Option String)).length = 2 ∧
    (["1"] : List String).length = 1 ∧ (2 : Nat) ≠ 1 :=
  ⟨rfl, rfl, rfl, by decide⟩

/-- C5 amended: for every non-empty column and window size seq_length ≥ 1 with
seq_length - 1 ≤ len(column), add_timeseries_matrix_profile returns a list
with exactly len(column) entries, and consequently the matrix returned by
feature_data has exactly len(column) rows (without that bound the list has
max(seq_length - 1, len(column)) entries). -/
theorem add_timeseries_matrix_profile_length_amended {γ : Type}
    (stumpyOracle : List String → Nat → List String) (column : List String)
    (seq_length : Nat) (h1 : 1 ≤ seq_length)
    (h2 : seq_length - 1 ≤ column.length) (hc : column ≠ []) :
    (∃ r, add_timeseries_matrix_profile id pd_isnull_str stumpyOracle column
        seq_length false = .ok r ∧ r.length = column.length) ∧
    (∀ (tokenizer : String → List String) (conv : String → γ) (md_max : Nat)
        (padding_value : γ) (padding : String),
      ∃ fr, feature_data tokenizer conv stumpyOracle column md_max seq_length
          false padding_value padding = .ok fr ∧
        fr.timeseries_data.length = column.length) := by
  obtain ⟨a, as, rfl⟩ := List.exists_cons_of_ne_nil hc
  have heq := add_timeseries_matrix_profile_false_eq stumpyOracle a as seq_length
  have hlen : (List.replicate (seq_length - 1) (none : Option String) ++
      (List.range' (seq_length - 1) ((a :: as).length - (seq_length - 1))).map
        (fun index => some (String.intercalate " "
          (((List.replicate (seq_length - 1) a ++ (a :: as)).drop
            (index - (seq_length - 1))).take ((seq_length - 1) + 1))))).length
      = (a :: as).length := by
    simp only [List.length_append, List.length_replicate, List.length_map,
      List.length_range']
    omega
  refine ⟨⟨_, heq, hlen⟩, ?_⟩
  intro tokenizer conv md_max padding_value padding
  simp only [feature_data, heq]
  exact ⟨_, rfl, by rw [build_matrix_length, hlen]⟩

/-- Witness for the amended C5 at a concrete input. -/
theorem add_timeseries_matrix_profile_length_amended_witness :
    (1 ≤ 2) ∧ (2 - 1 ≤ (["1", "2"] : List String).length) ∧
    ((["1", "2"] : List String) ≠ []) ∧
    ((∃ r, add_timeseries_matrix_profile id pd_isnull_str (fun c _ => c)
        ["1", "2"] 2 false = .ok r ∧ r.length = (["1", "2"] : List String).length) ∧
    (∀ (tokenizer : String → List String) (conv : String → String) (md_max : Nat)
        (padding_value : String) (padding : String),
      ∃ fr, feature_data tokenizer conv (fun c _ => c) ["1", "2"] md_max 2
          false padding_value padding = .ok fr ∧
        fr.timeseries_data.length = (["1", "2"] : List String).length)) :=
  ⟨by decide, by decide, by decide,
    add_timeseries_matrix_profile_length_amended (fun c _ => c) ["1", "2"] 2
      (by decide) (by decide) (by decide)⟩

/-- C4 counterexample: for column ["1"], original metadata value 1 and
window_size 2, feature_data returns a matrix whose single row has 1 column
while metadata['max_timeseries_length'] is afterwards 2, so the column count
differs from the stored value when window_size exceeds the original. -/
theorem feature_data_metadata_mismatch_counterexample :
    feature_data (fun s => s.splitOn " ") (fun s => s) (fun c _ => c) ["1"] 1 2
        false "0" "right"
      = .ok ⟨[["0"]], 2, 1⟩ ∧
    ([["0"]] : List (List String)).map List.length = [1] ∧ (1 : Nat) ≠ 2 :=
  ⟨rfl, rfl, by decide⟩

/-- C4 amended: whenever feature_data returns, every row of the returned
matrix has exactly the ORIGINAL metadata max_timeseries_length columns and the
value stored back into the metadata is max(original, window_size); hence the
column count equals the stored value whenever window_size ≤ original, and only
then deviates. -/
theorem feature_data_shape_amended {γ : Type} (tokenizer : String → List String)
    (conv : String → γ) (stumpyOracle : List String → Nat → List String)
    (column : List String) (md_max window_size : Nat) (flag : Bool)
    (padding_value : γ) (padding : String) (r : FeatureDataResult γ)
    (hw : 1 ≤ window_size)
    (h : feature_data tokenizer conv stumpyOracle column md_max window_size
      flag padding_value padding = .ok r) :
    (∀ row ∈ r.timeseries_data, row.length = md_max) ∧
    r.max_timeseries_length = max md_max window_size ∧
    (window_size ≤ md_max →
      ∀ row ∈ r.timeseries_data, row.length = r.max_timeseries_length) := by
  cases heq : add_timeseries_matrix_profile id pd_isnull_str stumpyOracle
      column window_size flag with
  | error e =>
    rw [feature_data, heq] at h
    exact absurd h (by simp)
  | ok column2 =>
    rw [feature_data, heq] at h
    have hr : r = ⟨build_matrix tokenizer conv column2 md_max padding_value
        padding,
        if md_max < window_size then window_size else md_max,
        window_size - 1⟩ := by
      cases h
      rfl
    subst hr
    have hrows : ∀ row ∈ build_matrix tokenizer conv column2 md_max
        padding_value padding, row.length = md_max := by
      intro row hrow
      simp only [build_matrix, List.mem_map] at hrow
      obtain ⟨ts, _, rfl⟩ := hrow
      exact build_matrix_row_length tokenizer conv md_max padding_value
        padding ts
    have hmax : (if md_max < window_size then window_size else md_max)
        = max md_max window_size := by
      split <;> omega
    refine ⟨hrows, hmax, ?_⟩
    intro hle row hrow
    have := hrows row hrow
    simp only [hmax]
    omega

/-- Witness for the amended C4 at a concrete input. -/
theorem feature_data_shape_amended_witness :
    (∀ row ∈ (⟨[["1", "2"]], 2, 0⟩ : FeatureDataResult String).timeseries_data,
      row.length = 2) ∧
    (⟨[["1", "2"]], 2, 0⟩ : FeatureDataResult String).max_timeseries_length
      = max 2 1 ∧
    (1 ≤ 2 →
      ∀ row ∈ (⟨[["1", "2"]], 2, 0⟩ : FeatureDataResult String).timeseries_data,
        row.length = (⟨[["1", "2"]], 2, 0⟩ :
          FeatureDataResult String).max_timeseries_length) :=
  feature_data_shape_amended (fun s => s.data.map (fun c => String.mk [c])) id
    (fun c _ => c) ["12"] 2 1 false "0" "right" ⟨[["1", "2"]], 2, 0⟩
    (by decide) (by rfl)

/-- Witness for C10 at a concrete input. -/
theorem build_matrix_empty_string_row_witness :
    ((["", "1"] : List String)[0]? = some "") ∧
    (build_matrix (fun s => s.data.map (fun c => String.mk [c])) id
        ((["", "1"] : List String).map some) 2 "P" "left")[0]?
      = some (List.replicate 2 "P") :=
  ⟨by decide,
    build_matrix_empty_string_row (fun s => s.data.map (fun c => String.mk [c]))
      id ["", "1"] 2 "P" "left" 0 (by decide)⟩

end Ludwig
